import Mathlib

/-!
Verification of the Mai_Only_You proactive private-chat plugin.

This file gives a shallow embedding, in Lean 4, of the plugin's core decision
and state logic:

* `src/plugin.py` — the eligibility evaluator `_should_trigger_for_stream`
  and its helper gates (`_parse_time_to_minutes`, `_is_quiet_hours`,
  `_is_user_allowed`, `_require_reply_before_next`, `_get_daily_count`,
  `_increment_daily_count`, `_normalize_text`, `_is_recent_duplicate`,
  `_record_recent_sent`, `_update_last_user_message`, and the
  post-send recording block of `_handle_silence_trigger`).
* `src/state.py` — the retention cleanup `_cleanup_state_by_age` and the
  crash behaviour of the state-file writers (`_write_state_file` in the
  state mixin, and the direct writer `_save_state` in `plugin.py`).

Modelling conventions:

* Python strings are `List Char`; Python floats (wall-clock timestamps) are
  `ℚ` (exact arithmetic, fractional seconds allowed); Python ints are `ℤ`
  (or `ℕ` for minute-of-day values, which are non-negative by construction).
* Python `None` is `Option.none`; Python float truthiness (`if x:`) is
  "present and nonzero".
* `datetime.now()` is passed in explicitly as the wall-clock timestamp,
  the current minute-of-day, and the current calendar date; the conversion
  from a timestamp to a local calendar date (`datetime.fromtimestamp(t).date()`)
  is an abstract function `dateOf : ℚ → ℤ` supplied as a parameter, with
  calendar dates represented by an abstract `ℤ` day identifier.
-/

namespace MaiOnlyYou

/-! ## Basic character/string helpers (Python `str` operations) -/

/-- Python `str.strip()` on the left: drop leading whitespace. -/
def dropLeadingWs (l : List Char) : List Char :=
  l.dropWhile Char.isWhitespace

/-- Python `str.strip()`: drop leading and trailing whitespace. -/
def trimChars (l : List Char) : List Char :=
  ((l.dropWhile Char.isWhitespace).reverse.dropWhile Char.isWhitespace).reverse

/-- Python `str.isdigit()` (ASCII digits): nonempty and all digits. -/
def isAllDigits (l : List Char) : Bool :=
  !l.isEmpty && l.all Char.isDigit

/-- Python `int(...)` on a digit string: fold the decimal digits. -/
def digitsToNat (l : List Char) : Nat :=
  l.foldl (fun acc c => acc * 10 + (c.toNat - ('0').toNat)) 0

/-- Python `text.split(":", 1)` when `":" in text`: the part before the first
colon and the part after it; `none` when the text has no colon
(the `":" not in text` early return). -/
def splitFirstColon : List Char → Option (List Char × List Char)
  | [] => none
  | c :: rest =>
    if c = ':' then some ([], rest)
    else
      match splitFirstColon rest with
      | some (before, after) => some (c :: before, after)
      | none => none

/-! ## `_parse_time_to_minutes` (src/plugin.py lines 472-500, string branch)

The configuration values are strings (`HH:MM` or a bare hour); the numeric
branch of the Python function (`isinstance(value, (int, float))`) is not
reachable from the string-typed config schema and is not modelled. -/

/-- Embeds `MaiOnlyYouPlugin._parse_time_to_minutes` on a string value:
strip; empty ⇒ none; all digits ⇒ bare hour (0-23) times 60; otherwise split
on the first colon, strip and digit-check both parts, bounds-check hour 0-23
and minute 0-59, and return `hour * 60 + minute`. -/
def parse_time_to_minutes (value : List Char) : Option Nat :=
  let text := trimChars value
  if text.isEmpty then none
  else if isAllDigits text then
    let hour := digitsToNat text
    if hour ≤ 23 then some (hour * 60) else none
  else
    match splitFirstColon text with
    | none => none
    | some (hpart, mpart) =>
      let hourText := trimChars hpart
      let minuteText := trimChars mpart
      if isAllDigits hourText ∧ isAllDigits minuteText then
        let hour := digitsToNat hourText
        let minute := digitsToNat minuteText
        if hour ≤ 23 ∧ minute ≤ 59 then some (hour * 60 + minute) else none
      else none

/-! ## `_is_quiet_hours` (src/plugin.py lines 502-512) -/

/-- The window comparison at the end of `_is_quiet_hours`: with both bounds
parsed, `start <= end` means the closed interval test, otherwise the
wrap-around test `current >= start or current <= end`. -/
def quiet_hours_check (startMinutes endMinutes currentMinutes : Nat) : Bool :=
  if startMinutes ≤ endMinutes then
    decide (startMinutes ≤ currentMinutes ∧ currentMinutes ≤ endMinutes)
  else
    decide (currentMinutes ≥ startMinutes ∨ currentMinutes ≤ endMinutes)

/-- Embeds `MaiOnlyYouPlugin._is_quiet_hours`: parse both configured bounds; if
either fails to parse the function returns `false` (quiet hours disabled);
otherwise run the window comparison on the current minute-of-day. -/
def is_quiet_hours (startRaw endRaw : List Char) (currentMinutes : Nat) : Bool :=
  match parse_time_to_minutes startRaw, parse_time_to_minutes endRaw with
  | some s, some e => quiet_hours_check s e currentMinutes
  | _, _ => false

/-- The quiet-hours window as the specification words it: for
`start ≤ end` the closed interval `[start, end]`; for `start > end` the
wrap-around union `[start, 1439] ∪ [0, end]`. -/
def specQuietWindow (startMinutes endMinutes m : Nat) : Prop :=
  if startMinutes ≤ endMinutes then
    startMinutes ≤ m ∧ m ≤ endMinutes
  else
    (startMinutes ≤ m ∧ m ≤ 1439) ∨ m ≤ endMinutes

/-! ## `_is_user_allowed` (src/plugin.py lines 310-319) -/

/-- The literal characters of the string `allowlist`. -/
def allowlistChars : List Char := ['a', 'l', 'l', 'o', 'w', 'l', 'i', 's', 't']

/-- The literal characters of the string `whitelist`. -/
def whitelistChars : List Char := ['w', 'h', 'i', 't', 'e', 'l', 'i', 's', 't']

/-- The literal characters of the string `blocklist`. -/
def blocklistChars : List Char := ['b', 'l', 'o', 'c', 'k', 'l', 'i', 's', 't']

/-- Python `str.strip().lower()`. -/
def lowerTrim (l : List Char) : List Char :=
  (trimChars l).map Char.toLower

/-- Embeds `MaiOnlyYouPlugin._is_user_allowed`: build the set of non-empty
configured users; an empty set allows everyone; in `allowlist`/`whitelist`
mode membership is required, otherwise (deny-list, the default) membership
rejects. -/
def is_user_allowed (mode : List Char) (users : List (List Char))
    (userId : List Char) : Bool :=
  let userSet := users.filter (fun u => !u.isEmpty)
  if userSet.isEmpty then true
  else
    let modeValue := lowerTrim mode
    if modeValue = allowlistChars ∨ modeValue = whitelistChars then
      userSet.contains userId
    else
      !(userSet.contains userId)

/-! ## Data model (the four per-channel maps of `MaiOnlyYouPlugin.__init__`) -/

/-- One `{date, count}` daily-counter record. Calendar dates are abstract
`ℤ` day identifiers (the Python code stores `YYYY-MM-DD` strings). -/
structure DailyRecord where
  date : Int
  count : Int
deriving DecidableEq, Repr

/-- One `{content, ts}` entry of a `recent_sent` list. -/
structure SentItem where
  content : List Char
  ts : Rat
deriving DecidableEq, Repr

/-- The per-channel slice of the plugin's four state maps. An absent map
entry is `none` (or `[]` for `recentSent`, which the code treats exactly
like an absent entry everywhere it reads the map). -/
structure ChannelState where
  lastUserMessageTs : Option Rat
  lastProactiveTs : Option Rat
  dailyCount : Option DailyRecord
  recentSent : List SentItem
deriving DecidableEq, Repr

/-- The configuration snapshot read by one evaluation, with the fields and
defaults of the plugin's config schema. Quiet-hours bounds are kept raw
(unparsed), as in the source. -/
structure Config where
  enabled : Bool
  enableSilenceDetection : Bool
  filteringMode : List Char
  filteringUsers : List (List Char)
  quietHoursStart : List Char
  quietHoursEnd : List Char
  silenceThresholdMinutes : Int
  minIntervalHours : Int
  dailyMax : Int
  requireReplyBeforeNext : Bool
deriving Repr

/-! ## Evaluator gates (src/plugin.py lines 514-635) -/

/-- Python truthiness of an optional float: present and nonzero. -/
def truthyTs : Option Rat → Bool
  | none => false
  | some t => t != 0

/-- Embeds `MaiOnlyYouPlugin._get_last_user_message_ts`: return the cached value
when it is truthy, otherwise fall back to the external history lookup
(whose resulting latest timestamp is passed in as `externalTs`). -/
def resolve_last_user_ts (cached externalTs : Option Rat) : Option Rat :=
  match cached with
  | some c => if c = 0 then externalTs else some c
  | none => externalTs

/-- Embeds `MaiOnlyYouPlugin._require_reply_before_next`: with the flag off the
gate never fires; `last_proactive_ts` defaults to `0.0` when the map has no
entry and a non-positive value means "no previous send"; user activity
strictly after the send clears the gate; otherwise the gate fires exactly
when the send's local calendar date is today's date. -/
def require_reply_before_next (requireReply : Bool)
    (lastProactiveTs : Option Rat) (lastUserTs : Rat)
    (dateOf : Rat → Int) (today : Int) : Bool :=
  if !requireReply then false
  else
    let lp := lastProactiveTs.getD 0
    if lp ≤ 0 then false
    else if lp < lastUserTs then false
    else decide (dateOf lp = today)

/-- Embeds `MaiOnlyYouPlugin._reset_daily_count_if_needed`: a missing record or a
record whose date is not today is replaced by `{today, 0}`. -/
def reset_daily_count_if_needed (record : Option DailyRecord)
    (today : Int) : DailyRecord :=
  match record with
  | some r => if r.date = today then r else ⟨today, 0⟩
  | none => ⟨today, 0⟩

/-- Embeds `MaiOnlyYouPlugin._get_daily_count`: the read first runs the reset (a
mutation of the stored map) and then reads the count. The pair returned
here is (read value, stored record after the read). -/
def get_daily_count (record : Option DailyRecord) (today : Int) :
    Int × DailyRecord :=
  let r := reset_daily_count_if_needed record today
  (r.count, r)

/-- Embeds `MaiOnlyYouPlugin._increment_daily_count`: reset if needed, then add one
to the stored count; returns the stored record after the mutation. -/
def increment_daily_count (record : Option DailyRecord)
    (today : Int) : DailyRecord :=
  let r := reset_daily_count_if_needed record today
  ⟨r.date, r.count + 1⟩

/-- The minimum-interval gate of `_should_trigger_for_stream` (lines
628-631): fires when a truthy previous proactive timestamp is closer to
`now` than the configured interval. -/
def min_interval_blocks (lastProactiveTs : Option Rat)
    (nowTs minIntervalSecs : Rat) : Bool :=
  truthyTs lastProactiveTs &&
    decide (nowTs - lastProactiveTs.getD 0 < minIntervalSecs)

/-- Embeds `MaiOnlyYouPlugin._should_trigger_for_stream` (lines 610-635): the
gate chain in source order — plugin enabled, silence detection enabled,
list filter, quiet hours, resolvable truthy last-user timestamp, silence
threshold, require-reply gate, minimum interval, daily quota.
`dateOf` abstracts `datetime.fromtimestamp(·).date()`; `minuteOfDay` and
`today` are the facets of `datetime.now()` the gates read; `nowTs` is the
`now_ts` argument. -/
def should_trigger_for_stream (cfg : Config) (userId : List Char)
    (st : ChannelState) (externalTs : Option Rat) (dateOf : Rat → Int)
    (nowTs : Rat) (minuteOfDay : Nat) (today : Int) : Bool :=
  if !cfg.enabled then false
  else if !cfg.enableSilenceDetection then false
  else if !is_user_allowed cfg.filteringMode cfg.filteringUsers userId then false
  else if is_quiet_hours cfg.quietHoursStart cfg.quietHoursEnd minuteOfDay then false
  else
    let lastUserTs := resolve_last_user_ts st.lastUserMessageTs externalTs
    if !truthyTs lastUserTs then false
    else
      let lu := lastUserTs.getD 0
      if nowTs - lu < ((cfg.silenceThresholdMinutes * 60 : Int) : Rat) then false
      else if require_reply_before_next cfg.requireReplyBeforeNext
          st.lastProactiveTs lu dateOf today then false
      else if min_interval_blocks st.lastProactiveTs nowTs
          ((cfg.minIntervalHours * 3600 : Int) : Rat) then false
      else if cfg.dailyMax > 0 ∧ (get_daily_count st.dailyCount today).1 ≥ cfg.dailyMax then false
      else true

/-! ## Dedup normalization and recent-sent recording
(src/plugin.py lines 586-608) -/

/-- The characters `_normalize_text` strips (its replacement list). -/
def stripCharsList : List Char :=
  [' ', '\t', '\n', '-', '_', ',', '.', '!', '?', ':',
   '；', '，', '。', '！', '？', '：', '·', '—', '~']

/-- Embeds `MaiOnlyYouPlugin._normalize_text`: strip, lowercase, then remove every
occurrence of each listed punctuation/whitespace character. -/
def normalize_text (text : List Char) : List Char :=
  stripCharsList.foldl (fun acc ch => acc.filter (fun c => c != ch))
    ((trimChars text).map Char.toLower)

/-- Embeds `MaiOnlyYouPlugin._is_recent_duplicate`: an empty recent list is never a
duplicate; otherwise compare the normalized candidate against the
normalized content of each recent entry. -/
def is_recent_duplicate (items : List SentItem) (content : List Char) : Bool :=
  if items.isEmpty then false
  else
    let normalized := normalize_text content
    items.any (fun item => normalize_text item.content == normalized)

/-- Embeds `MaiOnlyYouPlugin._record_recent_sent`: append the `{content, ts}`
entry, then keep only the last 20 entries when the list exceeds 20. -/
def record_recent_sent (items : List SentItem) (content : List Char)
    (nowTs : Rat) : List SentItem :=
  let appended := items ++ [⟨content, nowTs⟩]
  if appended.length > 20 then appended.drop (appended.length - 20)
  else appended

/-- The post-send recording block of `_handle_silence_trigger`
(src/plugin.py lines 714-717): set `last_proactive_ts` to the send time,
increment today's daily counter, and append to `recent_sent`. -/
def record_proactive_send (st : ChannelState) (sendTs : Rat)
    (content : List Char) (today : Int) : ChannelState :=
  { st with
    lastProactiveTs := some sendTs,
    dailyCount := some (increment_daily_count st.dailyCount today),
    recentSent := record_recent_sent st.recentSent content sendTs }

/-! ## `_update_last_user_message` (src/plugin.py lines 514-516) -/

/-- The `last_user_message_ts` map together with the dirty flag that
`_save_state` raises. Keys are channel (stream) identifier strings. -/
structure UserTsStore where
  map : List (List Char × Rat)
  dirty : Bool
deriving DecidableEq, Repr

/-- Dictionary lookup on the association-list model of a Python dict. -/
def assocGet : List (List Char × Rat) → List Char → Option Rat
  | [], _ => none
  | (k, v) :: rest, key => if k = key then some v else assocGet rest key

/-- Dictionary assignment on the association-list model of a Python dict:
replace the value of an existing key, or append a new binding. -/
def assocSet : List (List Char × Rat) → List Char → Rat → List (List Char × Rat)
  | [], key, v => [(key, v)]
  | (k, w) :: rest, key, v =>
    if k = key then (k, v) :: rest else (k, w) :: assocSet rest key v

/-- Embeds `MaiOnlyYouPlugin._update_last_user_message`: an unconditional dict
assignment `self._last_user_message_ts[stream_id] = ts` followed by
`_save_state()` (modelled as raising the dirty flag). -/
def update_last_user_message (store : UserTsStore) (streamId : List Char)
    (ts : Rat) : UserTsStore :=
  { map := assocSet store.map streamId ts, dirty := true }

/-! ## Retention cleanup `_cleanup_state_by_age` (src/state.py lines 61-118)

The loop body handles each channel independently; it is embedded per
channel. `dateToTs : ℤ → ℚ` abstracts
`datetime.strptime(date, "%Y-%m-%d").timestamp()` on the abstract calendar
dates (in this typed model every stored date parses). -/

/-- Python `max` on two timestamps. -/
def ratMax (a b : Rat) : Rat := if a ≤ b then b else a

/-- The `last_ts` computation of `_cleanup_state_by_age`: start from `0.0`
and fold in the last-user timestamp, the last-proactive timestamp, the
maximum `ts` of the recent-sent entries, and the daily-counter date as a
timestamp — each only when present. -/
def channel_last_activity (dateToTs : Int → Rat) (st : ChannelState) : Rat :=
  let t0 : Rat := 0
  let t1 := match st.lastUserMessageTs with
    | some v => ratMax t0 v
    | none => t0
  let t2 := match st.lastProactiveTs with
    | some v => ratMax t1 v
    | none => t1
  let t3 := match st.recentSent.map SentItem.ts with
    | [] => t2
    | v :: rest => ratMax t2 (rest.foldl ratMax v)
  match st.dailyCount with
  | some r => ratMax t3 (dateToTs r.date)
  | none => t3

/-- The cutoff `cutoff_ts = now_ts - retention_days * 86400` (src/state.py line 65). -/
def cleanup_cutoff (retentionDays : Int) (nowTs : Rat) : Rat :=
  nowTs - ((retentionDays * 86400 : Int) : Rat)

/-- The per-channel body of `_cleanup_state_by_age`: when the channel's
last activity is strictly before the cutoff, every map entry of the channel
is popped (`none`); otherwise the channel is kept and only the
`recent_sent` entries with `ts < cutoff` are dropped (an entry is kept when
`ts >= cutoff`). -/
def cleanup_channel (cutoff : Rat) (dateToTs : Int → Rat)
    (st : ChannelState) : Option ChannelState :=
  if channel_last_activity dateToTs st < cutoff then none
  else some { st with recentSent := st.recentSent.filter (fun item => decide (cutoff ≤ item.ts)) }

/-! ## State-file writers (src/state.py lines 128-147; src/plugin.py
lines 739-754)

The file system is abstracted as the contents of the live state file and of
the temporary file. A file's content is a character list; an interrupted
write persists an arbitrary prefix of the data being written (the usual
model of a non-atomic file write), while a rename is atomic (it either has
not happened or has fully happened). -/

/-- Live state file and temporary-file contents. -/
structure FsState where
  live : Option (List Char)
  tmp : Option (List Char)
deriving DecidableEq, Repr

/-- The crash states of the mixin's `_write_state_file` (src/state.py
lines 128-147): it writes the serialized data to the `.tmp` path and then
atomically renames it over the live path. A crash can happen before
anything, during the temporary-file write (persisting a prefix of the data
into the temporary file only), or after the rename. -/
def AtomicWriteCrashState (data : List Char) (fs fsCrash : FsState) : Prop :=
  fsCrash = fs
  ∨ (∃ k, k ≤ data.length ∧ fsCrash = ⟨fs.live, some (data.take k)⟩)
  ∨ fsCrash = ⟨some data, none⟩

/-- The crash states of the standalone plugin's `_save_state`
(src/plugin.py lines 739-754): it opens the live path directly with mode
`w` (truncating) and serializes into it, so a crash mid-write persists a
prefix of the new data in the live file itself. -/
def DirectWriteCrashState (data : List Char) (fs fsCrash : FsState) : Prop :=
  fsCrash = fs
  ∨ (∃ k, k ≤ data.length ∧ fsCrash = ⟨some (data.take k), fs.tmp⟩)

/-- The completed-run behaviour of `_write_state_file` with failure
injection: on success the data is renamed onto the live path and the
temporary file is gone; when the I/O fails the exception is caught, the
temporary file is unlinked and nothing is raised — the function totalizes
to a file-system state with no temporary file and the live file untouched. -/
def write_state_file (data : List Char) (failDuringWrite : Bool)
    (fs : FsState) : FsState :=
  if failDuringWrite then ⟨fs.live, none⟩ else ⟨some data, none⟩

/-! ## Concrete example values used by the closed scenarios -/

/-- The characters of `22:00`. -/
def timeText2200 : List Char := ['2', '2', ':', '0', '0']

/-- The characters of `02:00`. -/
def timeText0200 : List Char := ['0', '2', ':', '0', '0']

/-- The characters of `01:00`. -/
def timeText0100 : List Char := ['0', '1', ':', '0', '0']

/-- The characters of `06:00`. -/
def timeText0600 : List Char := ['0', '6', ':', '0', '0']

/-- An example user identifier. -/
def uidExample : List Char := ['4', '2']

/-- An example generated message content. -/
def contentExample : List Char := ['h', 'i']

/-- The characters of `Hello, World!`. -/
def textHelloCommaWorld : List Char :=
  ['H', 'e', 'l', 'l', 'o', ',', ' ', 'W', 'o', 'r', 'l', 'd', '!']

/-- The characters of `hello world`. -/
def textHelloWorldLower : List Char :=
  ['h', 'e', 'l', 'l', 'o', ' ', 'w', 'o', 'r', 'l', 'd']

/-- The characters of `Hello World`. -/
def textHelloWorld : List Char :=
  ['H', 'e', 'l', 'l', 'o', ' ', 'W', 'o', 'r', 'l', 'd']

/-- The characters of `Hello  World` (two spaces). -/
def textHelloWorldWide : List Char :=
  ['H', 'e', 'l', 'l', 'o', ' ', ' ', 'W', 'o', 'r', 'l', 'd']

/-- The characters of `Hello`. -/
def textHello : List Char := ['H', 'e', 'l', 'l', 'o']

/-- The characters of `Hello!!`. -/
def textHelloBangs : List Char := ['H', 'e', 'l', 'l', 'o', '!', '!']

/-- The characters of `abc`. -/
def textAbc : List Char := ['a', 'b', 'c']

/-- The characters of `abd`. -/
def textAbd : List Char := ['a', 'b', 'd']

/-- A local-calendar-date function under which every timestamp of the
scenarios falls on day `0` (the scenarios span a single day). -/
def dateZero : Rat → Int := fun _ => 0

/-- A date-to-timestamp function for channels that carry no daily-counter
record. -/
def dateTsZero : Int → Rat := fun _ => 0

/-- The configuration of the end-to-end scenario: plugin and silence
detection enabled, empty deny list, quiet hours 01:00-06:00, silence
threshold 120 minutes, minimum interval 6 hours, daily maximum 1,
require-reply flag on (the schema defaults). -/
def cfgMain : Config :=
  { enabled := true
    enableSilenceDetection := true
    filteringMode := blocklistChars
    filteringUsers := []
    quietHoursStart := timeText0100
    quietHoursEnd := timeText0600
    silenceThresholdMinutes := 120
    minIntervalHours := 6
    dailyMax := 1
    requireReplyBeforeNext := true }

/-- Configuration `cfgMain` with the plugin disabled. -/
def cfgDisabled : Config := { cfgMain with enabled := false }

/-- A channel whose user went silent 130 minutes (7800 seconds) before the
scenario time `1000000`, with no prior proactive send. -/
def stSilent : ChannelState :=
  { lastUserMessageTs := some 992200
    lastProactiveTs := none
    dailyCount := none
    recentSent := [] }

/-- A channel whose user was active 100 seconds before the scenario time
`1000000`. -/
def stRecentlyActive : ChannelState :=
  { stSilent with lastUserMessageTs := some 999900 }

/-- A channel whose only timestamp (`5961600` = day 69) is 31 days before
the cleanup time `8640000` (day 100). -/
def chStale : ChannelState :=
  { lastUserMessageTs := some 5961600
    lastProactiveTs := none
    dailyCount := none
    recentSent := [] }

/-- A channel whose only timestamp (`6134400` = day 71) is 29 days before
the cleanup time `8640000` (day 100). -/
def chLive : ChannelState :=
  { chStale with lastUserMessageTs := some 6134400 }

/-! ## Shared helper lemmas -/

/-- A 130-minute silence meets the 120-minute threshold. -/
theorem elapsed_meets_threshold :
    ¬((1000000 : Rat) - 992200 < ((cfgMain.silenceThresholdMinutes * 60 : Int) : Rat)) := by
  norm_num [cfgMain]

/-- A 100-second silence is under the 120-minute threshold. -/
theorem elapsed_under_threshold :
    (1000000 : Rat) - 999900 < ((cfgMain.silenceThresholdMinutes * 60 : Int) : Rat) := by
  norm_num [cfgMain]

/-- The stale channel's last activity sits before the 30-day cutoff at
time `8640000`. -/
theorem stale_before_cutoff :
    channel_last_activity dateTsZero chStale < cleanup_cutoff 30 8640000 := by
  norm_num [channel_last_activity, dateTsZero, chStale, cleanup_cutoff, ratMax]

/-- The live channel's last activity sits at or after the 30-day cutoff at
time `8640000`. -/
theorem live_at_or_after_cutoff :
    cleanup_cutoff 30 8640000 ≤ channel_last_activity dateTsZero chLive := by
  norm_num [channel_last_activity, dateTsZero, chLive, chStale, cleanup_cutoff, ratMax]

/-! ## Claims -/

/-- C1: Quiet-hours membership. For every parsed start/end minute-of-day
pair and every minute-of-day `m` (`m ≤ 1439`), `_is_quiet_hours` reports
quiet (and the evaluator therefore rejects) exactly when `m` lies in the
spec's window: the closed interval `[start, end]` when `start ≤ end`, and
the wrap-around union `[start, 1439] ∪ [0, end]` when `start > end`.
Concretely, for the window 22:00-02:00 the minutes 23:00, 00:30 and 01:59
are inside while 02:01 and 12:00 are outside, and for the window
01:00-06:00 the minute 03:00 is inside while 00:59 and 06:01 are outside. -/
theorem quiet_hours_window_correct :
    (∀ (startRaw endRaw : List Char) (s e m : Nat),
        parse_time_to_minutes startRaw = some s →
        parse_time_to_minutes endRaw = some e →
        m ≤ 1439 →
        (quiet_hours_check s e m = true ↔ specQuietWindow s e m))
    ∧ parse_time_to_minutes timeText2200 = some 1320
    ∧ parse_time_to_minutes timeText0200 = some 120
    ∧ is_quiet_hours timeText2200 timeText0200 1380 = true
    ∧ is_quiet_hours timeText2200 timeText0200 30 = true
    ∧ is_quiet_hours timeText2200 timeText0200 119 = true
    ∧ is_quiet_hours timeText2200 timeText0200 121 = false
    ∧ is_quiet_hours timeText2200 timeText0200 720 = false
    ∧ parse_time_to_minutes timeText0100 = some 60
    ∧ parse_time_to_minutes timeText0600 = some 360
    ∧ is_quiet_hours timeText0100 timeText0600 180 = true
    ∧ is_quiet_hours timeText0100 timeText0600 59 = false
    ∧ is_quiet_hours timeText0100 timeText0600 361 = false := by
  refine ⟨?_, by decide⟩
  intro startRaw endRaw s e m _ _ hm
  by_cases h : s ≤ e
  · simp only [quiet_hours_check, specQuietWindow, if_pos h, decide_eq_true_eq]
  · simp only [quiet_hours_check, specQuietWindow, if_neg h, decide_eq_true_eq]
    omega

/-- Witness for C1 at the wrap-around window 22:00-02:00 and minute 00:30. -/
theorem quiet_hours_window_correct_witness :
    specQuietWindow 1320 120 30 :=
  (quiet_hours_window_correct.1 timeText2200 timeText0200 1320 120 30
    (by decide) (by decide) (by decide)).mp (by decide)

/-- C2: the silence threshold is a necessary condition. For every
configuration, channel state and resolvable last-user timestamp `lu`, if
the elapsed time `now - lu` is strictly below the configured threshold (in
minutes, converted to seconds) then `_should_trigger_for_stream` returns
`false`, whatever the other gates would say; and meeting the threshold
alone does not force `true` (the disabled-plugin configuration still
returns `false` at 130 minutes of silence). -/
theorem silence_threshold_necessary :
    (∀ (cfg : Config) (userId : List Char) (st : ChannelState)
        (externalTs : Option Rat) (dateOf : Rat → Int)
        (nowTs : Rat) (minuteOfDay : Nat) (today : Int) (lu : Rat),
        resolve_last_user_ts st.lastUserMessageTs externalTs = some lu →
        nowTs - lu < ((cfg.silenceThresholdMinutes * 60 : Int) : Rat) →
        should_trigger_for_stream cfg userId st externalTs dateOf nowTs
          minuteOfDay today = false)
    ∧ should_trigger_for_stream cfgDisabled uidExample stSilent none dateZero
        1000000 720 0 = false
    ∧ ¬((1000000 : Rat) - 992200 < ((cfgDisabled.silenceThresholdMinutes * 60 : Int) : Rat)) := by
  refine ⟨?_, by decide, elapsed_meets_threshold⟩
  intro cfg userId st externalTs dateOf nowTs minuteOfDay today lu hres hlt
  unfold should_trigger_for_stream
  rw [hres]
  simp only [truthyTs, Option.getD_some]
  split_ifs <;> rfl

/-- Witness for C2: a channel active 100 seconds ago is rejected under the
fully-enabled scenario configuration. -/
theorem silence_threshold_necessary_witness :
    should_trigger_for_stream cfgMain uidExample stRecentlyActive none
      dateZero 1000000 720 0 = false :=
  silence_threshold_necessary.1 cfgMain uidExample stRecentlyActive none
    dateZero 1000000 720 0 999900 (by decide) elapsed_under_threshold

/-- C3: exact asymmetric semantics of the require-reply gate.
`_require_reply_before_next` fires (rejects) exactly when the flag is on,
a positive previous proactive timestamp is recorded, that send is at or
after the last user activity (plain ordering), and the send's local
calendar date equals today's (date equality, not a 24-hour window). With
the flag off, no recorded send, user activity strictly after the send, or
a send on a different date, the gate does not fire. -/
theorem require_reply_gate_exact :
    ∀ (requireReply : Bool) (lastProactiveTs : Option Rat) (lastUserTs : Rat)
      (dateOf : Rat → Int) (today : Int),
      require_reply_before_next requireReply lastProactiveTs lastUserTs
          dateOf today = true ↔
        (requireReply = true ∧ ∃ lp, lastProactiveTs = some lp ∧ 0 < lp ∧
          lastUserTs ≤ lp ∧ dateOf lp = today) := by
  intro requireReply lastProactiveTs lastUserTs dateOf today
  cases requireReply with
  | false => simp [require_reply_before_next]
  | true =>
    cases lastProactiveTs with
    | none => simp [require_reply_before_next]
    | some lp =>
      simp only [require_reply_before_next, Bool.not_true, Bool.false_eq_true,
        if_false, Option.getD_some, Option.some.injEq, true_and]
      split_ifs with h1 h2
      · simp only [Bool.false_eq_true, false_iff]
        rintro ⟨x, hx, h0, -, -⟩
        exact absurd (hx ▸ h0) (not_lt.mpr h1)
      · simp only [Bool.false_eq_true, false_iff]
        rintro ⟨x, hx, -, hle, -⟩
        exact absurd h2 (not_lt.mpr (hx ▸ hle))
      · simp only [decide_eq_true_eq]
        constructor
        · intro hd
          exact ⟨lp, rfl, not_le.mp h1, not_lt.mp h2, hd⟩
        · rintro ⟨x, hx, -, -, hd⟩
          exact hx ▸ hd

/-- C4: end-to-end quota exhaustion. Under the scenario configuration
(threshold 120 minutes, daily max 1, require-reply on, quiet hours
01:00-06:00), a channel silent for 130 minutes with no prior proactive
send triggers at noon; after recording a successful proactive send at that
same moment (setting the proactive timestamp, incrementing the daily
counter and appending to the recent-sent list), re-evaluating the same
channel at the same `now` yields `false`. -/
theorem quota_exhaustion_scenario :
    should_trigger_for_stream cfgMain uidExample stSilent none dateZero
      1000000 720 0 = true
    ∧ should_trigger_for_stream cfgMain uidExample
        (record_proactive_send stSilent 1000000 contentExample 0) none
        dateZero 1000000 720 0 = false := by
  constructor
  · unfold should_trigger_for_stream
    rw [show resolve_last_user_ts stSilent.lastUserMessageTs none = some 992200 from by decide]
    simp only [truthyTs, Option.getD_some]
    rw [if_neg (by decide), if_neg (by decide), if_neg (by decide),
      if_neg (by decide), if_neg (by decide), if_neg elapsed_meets_threshold,
      if_neg (by decide), if_neg (by decide), if_neg (by decide)]
  · unfold should_trigger_for_stream
    rw [show resolve_last_user_ts
        (record_proactive_send stSilent 1000000 contentExample 0).lastUserMessageTs none
        = some 992200 from by decide]
    simp only [truthyTs, Option.getD_some]
    rw [if_neg (by decide), if_neg (by decide), if_neg (by decide),
      if_neg (by decide), if_neg (by decide), if_neg elapsed_meets_threshold,
      if_pos (by decide)]

/-- C5 counterexample: recording a timestamp older than the stored one
does move the stored value backwards — starting from a stored `100`,
recording `50` leaves `50` in the map, not `100`. -/
theorem update_last_user_message_moves_backwards :
    assocGet (update_last_user_message ⟨[(uidExample, 100)], false⟩
      uidExample 50).map uidExample = some 50
    ∧ (some (50 : Rat)) ≠ (some (100 : Rat)) := by
  constructor
  · decide
  · decide

/-- C5 (amended): `_update_last_user_message` unconditionally overwrites
the stored timestamp with the given one — even when the new value is older
— and marks the store dirty; entries of other channels are untouched. -/
theorem update_last_user_message_overwrites :
    ∀ (store : UserTsStore) (streamId : List Char) (ts : Rat),
      assocGet (update_last_user_message store streamId ts).map streamId = some ts
      ∧ (update_last_user_message store streamId ts).dirty = true
      ∧ ∀ key, key ≠ streamId →
          assocGet (update_last_user_message store streamId ts).map key
            = assocGet store.map key := by
  intro store streamId ts
  refine ⟨?_, rfl, ?_⟩
  · show assocGet (assocSet store.map streamId ts) streamId = some ts
    induction store.map with
    | nil => simp [assocSet, assocGet]
    | cons hd tl ih =>
      obtain ⟨k0, v0⟩ := hd
      by_cases h : k0 = streamId
      · simp [assocSet, assocGet, h]
      · simp [assocSet, assocGet, h, ih]
  · intro key hkey
    show assocGet (assocSet store.map streamId ts) key = assocGet store.map key
    induction store.map with
    | nil => simp [assocSet, assocGet, Ne.symm hkey]
    | cons hd tl ih =>
      obtain ⟨k0, v0⟩ := hd
      by_cases h : k0 = streamId
      · subst h
        simp [assocSet, assocGet, Ne.symm hkey]
      · simp only [assocSet, if_neg h]
        by_cases h2 : k0 = key
        · simp [assocGet, h2]
        · simp [assocGet, h2, ih]

/-- Witness for C5 (amended) on an empty store and a distinct other key. -/
theorem update_last_user_message_overwrites_witness :
    assocGet (update_last_user_message ⟨[], false⟩ uidExample 7).map uidExample = some 7
    ∧ assocGet (update_last_user_message ⟨[], false⟩ uidExample 7).map ['9']
        = assocGet (UserTsStore.mk [] false).map ['9'] :=
  ⟨(update_last_user_message_overwrites ⟨[], false⟩ uidExample 7).1,
   (update_last_user_message_overwrites ⟨[], false⟩ uidExample 7).2.2 ['9'] (by decide)⟩

/-- C6 counterexample: a bare `_get_daily_count` read over a stale record
`{date 0, count 5}` on day `1` returns 0 but rewrites the stored record to
`{date 1, count 0}` — the stored date and count do change on a read. -/
theorem get_daily_count_mutates_on_read :
    (get_daily_count (some ⟨0, 5⟩) 1).1 = 0
    ∧ (get_daily_count (some ⟨0, 5⟩) 1).2 ≠ (⟨0, 5⟩ : DailyRecord) := by
  constructor
  · decide
  · decide

/-- C6 (amended): `_get_daily_count` applies the day-rollover rule at read
time — a fresh record is returned and left unchanged, while a stale or
missing record reads as 0 — but the read itself replaces a stale or
missing stored record with `{today, 0}` (the record is rewritten in
memory, not deleted; no flush is requested by the bare read). -/
theorem get_daily_count_read_behavior :
    ∀ (record : Option DailyRecord) (today : Int),
      (∀ r, record = some r → r.date = today →
        get_daily_count record today = (r.count, r))
      ∧ (∀ r, record = some r → r.date ≠ today →
        get_daily_count record today = (0, ⟨today, 0⟩))
      ∧ (record = none → get_daily_count record today = (0, ⟨today, 0⟩)) := by
  intro record today
  refine ⟨?_, ?_, ?_⟩
  · rintro r rfl hd
    simp [get_daily_count, reset_daily_count_if_needed, hd]
  · rintro r rfl hd
    simp [get_daily_count, reset_daily_count_if_needed, hd]
  · rintro rfl
    simp [get_daily_count, reset_daily_count_if_needed]

/-- Witness for C6 (amended): a fresh record is read and kept as is. -/
theorem get_daily_count_read_behavior_witness :
    get_daily_count (some ⟨3, 7⟩) 3 = (7, ⟨3, 7⟩) :=
  (get_daily_count_read_behavior (some ⟨3, 7⟩) 3).1 ⟨3, 7⟩ rfl rfl

/-- C7: the recent-sent cap. Every `_record_recent_sent` mutation leaves at
most 20 entries, and appending to a 20-entry list yields exactly the 20
newest entries: the oldest entry is dropped and the survivors keep their
order, with the new entry last. -/
theorem recent_sent_cap :
    (∀ (items : List SentItem) (content : List Char) (nowTs : Rat),
        (record_recent_sent items content nowTs).length ≤ 20)
    ∧ (∀ (items : List SentItem) (content : List Char) (nowTs : Rat),
        items.length = 20 →
        record_recent_sent items content nowTs
          = items.drop 1 ++ [⟨content, nowTs⟩]) := by
  constructor
  · intro items content nowTs
    simp only [record_recent_sent]
    split_ifs with h
    · rw [List.length_drop]
      omega
    · simp only [List.length_append, gt_iff_lt, not_lt] at h ⊢
      simp only [List.length_singleton] at h ⊢
      omega
  · intro items content nowTs hlen
    simp only [record_recent_sent]
    rw [if_pos (by simp [hlen])]
    have h20 : (items ++ [(⟨content, nowTs⟩ : SentItem)]).length - 20 = 1 := by
      simp [hlen]
    rw [h20, List.drop_append_of_le_length (by omega)]

/-- Witness for C7 at a concrete 20-entry list. -/
theorem recent_sent_cap_witness :
    record_recent_sent (List.replicate 20 ⟨[], 0⟩) contentExample 1000000
      = (List.replicate 20 (⟨[], 0⟩ : SentItem)).drop 1
        ++ [⟨contentExample, 1000000⟩] :=
  recent_sent_cap.2 (List.replicate 20 ⟨[], 0⟩) contentExample 1000000 (by simp)

/-- C8: duplicate detection by normalization. `_is_recent_duplicate` is
true exactly when the normalized candidate (strip, lowercase, punctuation
and whitespace characters removed) equals the normalized content of some
recent entry; concretely `Hello, World!` duplicates `hello world`,
`Hello World` duplicates `Hello  World`, `Hello` duplicates `Hello!!`,
and contents whose remaining letters differ are not duplicates. -/
theorem duplicate_by_normalization :
    (∀ (items : List SentItem) (content : List Char),
        is_recent_duplicate items content = true ↔
          ∃ item ∈ items, normalize_text item.content = normalize_text content)
    ∧ normalize_text textHelloCommaWorld = normalize_text textHelloWorldLower
    ∧ normalize_text textHelloWorld = normalize_text textHelloWorldWide
    ∧ normalize_text textHello = normalize_text textHelloBangs
    ∧ normalize_text textAbc ≠ normalize_text textAbd
    ∧ is_recent_duplicate [⟨textHelloWorldLower, 0⟩] textHelloCommaWorld = true
    ∧ is_recent_duplicate [⟨textAbc, 0⟩] textAbd = false := by
  refine ⟨?_, by decide⟩
  intro items content
  cases items with
  | nil => simp [is_recent_duplicate]
  | cons a l =>
    simp [is_recent_duplicate, List.any_eq_true, beq_iff_eq]

/-- C9 counterexample: the standalone plugin's `_save_state` writes the
live file directly (truncating open, no temporary file), so a crash
mid-write can leave the live file holding a strict prefix of the new data
— neither the complete old version (`ab`) nor the complete new one
(`cd`). -/
theorem direct_save_partial_write :
    DirectWriteCrashState ['c', 'd'] ⟨some ['a', 'b'], none⟩ ⟨some ['c'], none⟩
    ∧ (some ['c'] : Option (List Char)) ≠ some ['a', 'b']
    ∧ (some ['c'] : Option (List Char)) ≠ some ['c', 'd'] := by
  refine ⟨Or.inr ⟨1, by decide, by decide⟩, by decide, by decide⟩

/-- C9 (amended): the state mixin's `_write_state_file` is crash-safe —
every crash state of its temp-write-then-rename sequence leaves the live
file holding either the complete old content or the complete new content —
and with failure injection it never leaves a temporary file behind and
never touches the live file on failure (exceptions are swallowed); the
standalone plugin's direct `_save_state` writer, however, lacks the
temporary-file step (see the counterexample). -/
theorem atomic_write_crash_safe :
    (∀ (data : List Char) (fs fsCrash : FsState),
        AtomicWriteCrashState data fs fsCrash →
        fsCrash.live = fs.live ∨ fsCrash.live = some data)
    ∧ (∀ (data : List Char) (failDuringWrite : Bool) (fs : FsState),
        (write_state_file data failDuringWrite fs).tmp = none
        ∧ ((write_state_file data failDuringWrite fs).live = fs.live
            ∨ (write_state_file data failDuringWrite fs).live = some data)) := by
  constructor
  · rintro data fs fsCrash (rfl | ⟨k, -, rfl⟩ | rfl)
    · left; rfl
    · left; rfl
    · right; rfl
  · intro data failDuringWrite fs
    cases failDuringWrite <;> simp [write_state_file]

/-- Witness for C9 (amended): a crash after the temporary write but before
the rename leaves the old live content. -/
theorem atomic_write_crash_safe_witness :
    (FsState.mk (some ['a']) (some ['c'])).live = (FsState.mk (some ['a']) none).live
    ∨ (FsState.mk (some ['a']) (some ['c'])).live = some ['c'] :=
  atomic_write_crash_safe.1 ['c'] ⟨some ['a'], none⟩ ⟨some ['a'], some ['c']⟩
    (Or.inr (Or.inl ⟨1, by decide, by decide⟩))

/-- C10: retention pruning. For every cutoff, a channel is deleted wholly
(all map entries popped) exactly when its last activity — the maximum over
the last-user timestamp, the last-proactive timestamp, the newest
recent-sent timestamp and the daily-counter date as a timestamp — is
strictly before the cutoff; otherwise the channel is kept and exactly its
recent-sent entries older than the same cutoff are removed. With a 30-day
retention, a channel whose only timestamp is 31 days old is fully removed
and one whose latest timestamp is 29 days old is retained. -/
theorem retention_pruning :
    (∀ (cutoff : Rat) (dateToTs : Int → Rat) (st : ChannelState),
        (cleanup_channel cutoff dateToTs st = none ↔
          channel_last_activity dateToTs st < cutoff)
        ∧ (cutoff ≤ channel_last_activity dateToTs st →
            cleanup_channel cutoff dateToTs st =
              some { st with recentSent :=
                st.recentSent.filter (fun item => decide (cutoff ≤ item.ts)) }))
    ∧ cleanup_channel (cleanup_cutoff 30 8640000) dateTsZero chStale = none
    ∧ cleanup_channel (cleanup_cutoff 30 8640000) dateTsZero chLive = some chLive := by
  have h1 : ∀ (cutoff : Rat) (dateToTs : Int → Rat) (st : ChannelState),
      (cleanup_channel cutoff dateToTs st = none ↔
        channel_last_activity dateToTs st < cutoff)
      ∧ (cutoff ≤ channel_last_activity dateToTs st →
          cleanup_channel cutoff dateToTs st =
            some { st with recentSent :=
              st.recentSent.filter (fun item => decide (cutoff ≤ item.ts)) }) := by
    intro cutoff dateToTs st
    constructor
    · unfold cleanup_channel
      split_ifs with h <;> simp [h]
    · intro hge
      unfold cleanup_channel
      rw [if_neg (not_lt.mpr hge)]
  refine ⟨h1, ?_, ?_⟩
  · exact (h1 _ _ _).1.mpr stale_before_cutoff
  · exact ((h1 (cleanup_cutoff 30 8640000) dateTsZero chLive).2
      live_at_or_after_cutoff).trans (by decide)

/-- Witness for C10 at the retained channel. -/
theorem retention_pruning_witness :
    cleanup_channel (cleanup_cutoff 30 8640000) dateTsZero chLive =
      some { chLive with recentSent := chLive.recentSent.filter (fun item => decide (cleanup_cutoff 30 8640000 ≤ item.ts)) } :=
  (retention_pruning.1 (cleanup_cutoff 30 8640000) dateTsZero chLive).2
    live_at_or_after_cutoff

end MaiOnlyYou
